import Mathlib

/-!
# lifecycle-service start-up (`cmd/lifecycle-service/app/app.go`)

A shallow embedding of package `app`: the log-level table, the logger
factory `setupLogger`, the `Options` record with its flag registration
`addFlags`, and the orchestration function `Run`.

Go values are rendered as follows.

* `string` is `String`; `int` and `time.Duration` are `Int`; `uint64` is `Nat`
  (no arithmetic is performed on any of them, so no wrap-around arises).
* A nilable value (`error`, `slog.Leveler`, `*slog.Logger`) is an `Option`,
  `none` standing for `nil`.
* The packages `config`, `service`, `slog` and `pflag` are not part of the
  file.  `config.GetConfig`, `service.NewGrpcServer` and `Server.Start` are
  parameters of `Run`; the few `slog` and `pflag` facts that are needed are
  stated as small definitions with a doc comment that says so.
* `Run` returns, next to its `error`, the list of effects it performed, in
  program order.
-/

namespace App

/-! ## log/slog -/

/-- Severity of a record, Go `slog.Level` (`type Level int`). -/
abbrev Level := Int

/-- Modelled from the spec: the constant `slog.LevelDebug` of the Go standard
library, which is not among the sources.  The spec orders the ranks
`debug < info < warn < error`; the number is the one `log/slog` declares. -/
def LevelDebug : Level := -4

/-- Modelled from the spec: the constant `slog.LevelInfo` of the Go standard
library (see `LevelDebug`). -/
def LevelInfo : Level := 0

/-- Modelled from the spec: the constant `slog.LevelWarn` of the Go standard
library (see `LevelDebug`). -/
def LevelWarn : Level := 4

/-- Modelled from the spec: the constant `slog.LevelError` of the Go standard
library (see `LevelDebug`). -/
def LevelError : Level := 8

/-- Go `slog.Leveler`, an interface value: `none` is the nil interface,
`some l` a `slog.Level` stored in it. -/
abbrev Leveler := Option Level

/-- The two handler constructors used by `setupLogger`:
`slog.NewJSONHandler` and `slog.NewTextHandler`. -/
inductive HandlerKind where
  | json
  | text
  deriving DecidableEq, Repr

/-- The output stream a handler is bound to; `setupLogger` only uses
`os.Stdout`. -/
inductive Sink where
  | stdout
  deriving DecidableEq, Repr

/-- Go `slog.HandlerOptions`, the two fields set by `setupLogger`. -/
structure HandlerOptions where
  AddSource : Bool
  Level : Leveler
  deriving DecidableEq, Repr

/-- A non-nil `*slog.Logger` as built by
`slog.New(slog.NewJSONHandler(w, opts))` or
`slog.New(slog.NewTextHandler(w, opts))`. -/
structure Logger where
  kind : HandlerKind
  w : Sink
  opts : HandlerOptions
  deriving DecidableEq, Repr

/-- Modelled from the spec: the severity filter of the `log/slog` handlers
(Go standard library, not among the sources), "records below the configured
minimum severity are suppressed".  The minimum is the `Level` option of the
handler; when that option is nil the library takes `LevelInfo`. -/
def Logger.Enabled (lg : Logger) (s : Level) : Bool :=
  match lg.opts.Level with
  | none => decide (LevelInfo ≤ s)
  | some l => decide (l ≤ s)

/-! ## Package `app` -/

/-- Go `type LogFormat string`. -/
abbrev LogFormat := String

/-- Go `JSON LogFormat = "json"`. -/
def JSON : LogFormat := "json"

/-- Go `Text LogFormat = "text"`. -/
def Text : LogFormat := "text"

/-- Go `var logLevelMapping = map[string]slog.Leveler{...}`, as the list of
its key/value pairs. -/
def logLevelMapping : List (String × Level) :=
  [ ("debug", LevelDebug),
    ("info", LevelInfo),
    ("warn", LevelWarn),
    ("error", LevelError) ]

/-- The Go index expression `logLevelMapping[name]`: the stored level, or
the nil `slog.Leveler` when `name` is not a key. -/
def logLevelMappingAt (name : String) : Leveler :=
  logLevelMapping.lookup name

/-- Go `type Options struct`.  The field `namespace` is written
`namespace_`, the plain word being reserved. -/
structure Options where
  kubeconfig : String
  logLevel : String
  logFormat : String
  host : String
  port : Int
  namespace_ : String
  horizon : Int
  workers : Nat
  queue : Nat
  dev : Bool
  deriving DecidableEq, Repr

/-- Go `func setupLogger(format LogFormat, level slog.Leveler, dev bool)
*slog.Logger`. -/
def setupLogger (format : LogFormat) (level : Leveler) (dev : Bool) : Option Logger :=
  if format = JSON then
    some { kind := HandlerKind.json, w := Sink.stdout,
           opts := { AddSource := dev, Level := level } }
  else if format = Text then
    some { kind := HandlerKind.text, w := Sink.stdout,
           opts := { AddSource := dev, Level := level } }
  else
    none

/-! ## Flag registration -/

/-- The ten fields of `Options`, used to name the variable a flag is bound
to (`&o.kubeconfig`, `&o.logLevel`, ...). -/
inductive Field where
  | kubeconfig
  | logLevel
  | logFormat
  | host
  | port
  | namespace_
  | horizon
  | workers
  | queue
  | dev
  deriving DecidableEq, Repr

/-- A pointer to a field of the `Options` record: which field it is, and how
a value is stored through it. -/
structure Ptr (α : Type) where
  field : Field
  store : Options → α → Options

/-- Go `&o.kubeconfig`. -/
def Options.kubeconfigPtr : Ptr String :=
  { field := Field.kubeconfig, store := fun o v => { o with kubeconfig := v } }

/-- Go `&o.logLevel`. -/
def Options.logLevelPtr : Ptr String :=
  { field := Field.logLevel, store := fun o v => { o with logLevel := v } }

/-- Go `&o.logFormat`. -/
def Options.logFormatPtr : Ptr String :=
  { field := Field.logFormat, store := fun o v => { o with logFormat := v } }

/-- Go `&o.host`. -/
def Options.hostPtr : Ptr String :=
  { field := Field.host, store := fun o v => { o with host := v } }

/-- Go `&o.port`. -/
def Options.portPtr : Ptr Int :=
  { field := Field.port, store := fun o v => { o with port := v } }

/-- Go `&o.namespace`. -/
def Options.namespacePtr : Ptr String :=
  { field := Field.namespace_, store := fun o v => { o with namespace_ := v } }

/-- Go `&o.horizon`. -/
def Options.horizonPtr : Ptr Int :=
  { field := Field.horizon, store := fun o v => { o with horizon := v } }

/-- Go `&o.workers`. -/
def Options.workersPtr : Ptr Nat :=
  { field := Field.workers, store := fun o v => { o with workers := v } }

/-- Go `&o.queue`. -/
def Options.queuePtr : Ptr Nat :=
  { field := Field.queue, store := fun o v => { o with queue := v } }

/-- Go `&o.dev`. -/
def Options.devPtr : Ptr Bool :=
  { field := Field.dev, store := fun o v => { o with dev := v } }

/-- The type of a registered flag together with its default value. -/
inductive FlagValue where
  | string (v : String)
  | int (v : Int)
  | duration (v : Int)
  | uint64 (v : Nat)
  | bool (v : Bool)
  deriving DecidableEq, Repr

/-- One entry of a `pflag.FlagSet`: name, typed default, help text and the
`Options` field the flag writes to. -/
structure Flag where
  name : String
  value : FlagValue
  usage : String
  target : Field
  deriving DecidableEq, Repr

/-- A `pflag.FlagSet`, as the list of its flags in registration order. -/
abbrev FlagSet := List Flag

/-- The record being filled in together with the flag set being built:
the two things `addFlags` updates. -/
abbrev Registration := Options × FlagSet

/-- Modelled from the spec: the call `fs.StringVar(p, name, value, usage)` of
the `pflag` library, which is not among the sources.  It binds the variable
behind `p` to "a named, typed, defaulted command-line flag": the default
`value` is stored through `p` and a string flag `name` is registered. -/
def StringVar (p : Ptr String) (name : String) (value : String) (usage : String)
    (r : Registration) : Registration :=
  (p.store r.1 value, r.2 ++ [{ name := name, value := FlagValue.string value,
                                usage := usage, target := p.field }])

/-- Modelled from the spec: the call `fs.IntVar(p, name, value, usage)` of the
`pflag` library (see `StringVar`). -/
def IntVar (p : Ptr Int) (name : String) (value : Int) (usage : String)
    (r : Registration) : Registration :=
  (p.store r.1 value, r.2 ++ [{ name := name, value := FlagValue.int value,
                                usage := usage, target := p.field }])

/-- Modelled from the spec: the call `fs.DurationVar(p, name, value, usage)` of the
`pflag` library (see `StringVar`). -/
def DurationVar (p : Ptr Int) (name : String) (value : Int) (usage : String)
    (r : Registration) : Registration :=
  (p.store r.1 value, r.2 ++ [{ name := name, value := FlagValue.duration value,
                                usage := usage, target := p.field }])

/-- Modelled from the spec: the call `fs.Uint64Var(p, name, value, usage)` of the
`pflag` library (see `StringVar`). -/
def Uint64Var (p : Ptr Nat) (name : String) (value : Nat) (usage : String)
    (r : Registration) : Registration :=
  (p.store r.1 value, r.2 ++ [{ name := name, value := FlagValue.uint64 value,
                                usage := usage, target := p.field }])

/-- Modelled from the spec: the call `fs.BoolVar(p, name, value, usage)` of the
`pflag` library (see `StringVar`). -/
def BoolVar (p : Ptr Bool) (name : String) (value : Bool) (usage : String)
    (r : Registration) : Registration :=
  (p.store r.1 value, r.2 ++ [{ name := name, value := FlagValue.bool value,
                                usage := usage, target := p.field }])

/-- Go `time.Minute`, in nanoseconds (`time.Duration` counts nanoseconds). -/
def Minute : Int := 60 * 1000000000

/-- Go `func (o *Options) addFlags(fs *pflag.FlagSet)`: the ten
registrations, in source order. -/
def Options.addFlags (o : Options) (fs : FlagSet) : Registration :=
  let r : Registration := (o, fs)
  let r := StringVar Options.kubeconfigPtr "kubeconfig" "" "path to kubeconfig file" r
  let r := StringVar Options.logLevelPtr "log-level" "info" "logging level" r
  let r := StringVar Options.logFormatPtr "log-format" "json" "logging format" r
  let r := StringVar Options.hostPtr "host" "" "bind host" r
  let r := IntVar Options.portPtr "port" 8080 "bind port" r
  let r := StringVar Options.namespacePtr "namespace" "default" "default namespace name" r
  let r := DurationVar Options.horizonPtr "horizon" (Minute * 30)
    "allowed lag for scan period check" r
  let r := Uint64Var Options.workersPtr "workers" 5 "number of workers to process tasks" r
  let r := Uint64Var Options.queuePtr "queue-capacity" 1024 "size of the scheduler's queue" r
  let r := BoolVar Options.devPtr "dev" false "development mode flag" r
  r

/-! ## Run -/

/-- Go `service.Options`, the fields `Run` fills in.  `Cfg` is the type of
the connection configuration (`*rest.Config`). -/
structure ServiceOptions (Cfg : Type) where
  Cfg : Cfg
  Log : Option Logger
  Host : String
  Port : Int
  Namespace : String
  Horizon : Int
  Workers : Nat
  QueueCapacity : Nat
  deriving DecidableEq, Repr

/-- The collaborators `Run` calls: `config.GetConfig()` with the pair it
returns, the constructor `service.NewGrpcServer`, and the method `Start` of
the server it yields. -/
structure Collaborators (Cfg Err Srv Ctx : Type) where
  GetConfig : Cfg × Option Err
  NewGrpcServer : ServiceOptions Cfg → Srv
  Start : Srv → Ctx → Option Err

/-- What `Run` does besides returning: its calls, with their arguments, and
the records it would write through the logger. -/
inductive Effect (Cfg Srv Ctx : Type) where
  | getConfig
  | setupLogger (format : LogFormat) (level : Leveler) (dev : Bool)
  | newGrpcServer (srvOpts : ServiceOptions Cfg)
  | start (srv : Srv) (ctx : Ctx)
  | logRecord (level : Level) (msg : String)
  deriving DecidableEq, Repr

/-- Go `func Run(ctx context.Context, opts Options) error`, returning the
error together with the effects performed, in order. -/
def Run {Cfg Err Srv Ctx : Type} (env : Collaborators Cfg Err Srv Ctx) (ctx : Ctx)
    (opts : Options) : Option Err × List (Effect Cfg Srv Ctx) :=
  let (cfg, err) := env.GetConfig
  match err with
  | some e => (some e, [Effect.getConfig])
  | none =>
    let log := setupLogger opts.logFormat (logLevelMappingAt opts.logLevel) opts.dev
    let srvOpts : ServiceOptions Cfg :=
      { Cfg := cfg,
        Log := log,
        Host := opts.host,
        Port := opts.port,
        Namespace := opts.namespace_,
        Horizon := opts.horizon,
        Workers := opts.workers,
        QueueCapacity := opts.queue }
    let srv := env.NewGrpcServer srvOpts
    (env.Start srv ctx,
      [Effect.getConfig,
       Effect.setupLogger opts.logFormat (logLevelMappingAt opts.logLevel) opts.dev,
       Effect.newGrpcServer srvOpts,
       Effect.start srv ctx])

/-- The server option bundles handed to `service.NewGrpcServer`, in call
order. -/
def bundles {Cfg Srv Ctx : Type} : List (Effect Cfg Srv Ctx) → List (ServiceOptions Cfg)
  | [] => []
  | Effect.newGrpcServer b :: t => b :: bundles t
  | _ :: t => bundles t

/-- The records written through the logger, in order. -/
def records {Cfg Srv Ctx : Type} : List (Effect Cfg Srv Ctx) → List (Level × String)
  | [] => []
  | Effect.logRecord l m :: t => (l, m) :: records t
  | _ :: t => records t

/-- The calls of the server's `Start`, with receiver and context, in call
order. -/
def starts {Cfg Srv Ctx : Type} : List (Effect Cfg Srv Ctx) → List (Srv × Ctx)
  | [] => []
  | Effect.start srv ctx :: t => (srv, ctx) :: starts t
  | _ :: t => starts t

/-! ## Concrete inputs -/

/-- Collaborators over strings: `GetConfig` returns `(cfg, err)`, the server
is represented by the bundle it was built from, and `Start` returns `r`. -/
def sampleEnv (cfg : String) (err : Option String) (r : Option String) :
    Collaborators String String (ServiceOptions String) Unit :=
  { GetConfig := (cfg, err),
    NewGrpcServer := fun b => b,
    Start := fun _ _ => r }

/-- An `Options` value as left by
`--kubeconfig=/etc/kube --port=9090 --workers=10 --queue-capacity=500`. -/
def sampleOptions : Options :=
  { kubeconfig := "/etc/kube",
    logLevel := "info",
    logFormat := "json",
    host := "",
    port := 9090,
    namespace_ := "default",
    horizon := Minute * 30,
    workers := 10,
    queue := 500,
    dev := false }

/-! ## Unfolding lemmas for `Run` -/

/-- The value of `Run` when `GetConfig` returns no error. -/
theorem Run_of_resolved {Cfg Err Srv Ctx : Type} (env : Collaborators Cfg Err Srv Ctx)
    (ctx : Ctx) (o : Options) (cfg : Cfg) (h : env.GetConfig = (cfg, none)) :
    Run env ctx o =
      (env.Start (env.NewGrpcServer
          { Cfg := cfg,
            Log := setupLogger o.logFormat (logLevelMappingAt o.logLevel) o.dev,
            Host := o.host, Port := o.port, Namespace := o.namespace_,
            Horizon := o.horizon, Workers := o.workers, QueueCapacity := o.queue }) ctx,
       [Effect.getConfig,
        Effect.setupLogger o.logFormat (logLevelMappingAt o.logLevel) o.dev,
        Effect.newGrpcServer
          { Cfg := cfg,
            Log := setupLogger o.logFormat (logLevelMappingAt o.logLevel) o.dev,
            Host := o.host, Port := o.port, Namespace := o.namespace_,
            Horizon := o.horizon, Workers := o.workers, QueueCapacity := o.queue },
        Effect.start (env.NewGrpcServer
          { Cfg := cfg,
            Log := setupLogger o.logFormat (logLevelMappingAt o.logLevel) o.dev,
            Host := o.host, Port := o.port, Namespace := o.namespace_,
            Horizon := o.horizon, Workers := o.workers, QueueCapacity := o.queue }) ctx]) := by
  simp [Run, h]

/-- The value of `Run` when `GetConfig` returns an error. -/
theorem Run_of_failed {Cfg Err Srv Ctx : Type} (env : Collaborators Cfg Err Srv Ctx)
    (ctx : Ctx) (o : Options) (cfg : Cfg) (e : Err) (h : env.GetConfig = (cfg, some e)) :
    Run env ctx o = (some e, [Effect.getConfig]) := by
  simp [Run, h]

/-- The logger is nil exactly for a format other than "json" and "text". -/
theorem setupLogger_eq_none_iff (format : LogFormat) (level : Leveler) (dev : Bool) :
    setupLogger format level dev = none ↔ format ≠ "json" ∧ format ≠ "text" := by
  unfold setupLogger JSON Text
  by_cases h1 : format = "json"
  · simp [h1]
  · by_cases h2 : format = "text"
    · simp [h2]
    · simp [h1, h2]

/-- A lookup in `logLevelMapping` succeeds exactly for its four keys. -/
theorem logLevelMappingAt_isSome_iff (name : String) :
    (logLevelMappingAt name).isSome = true ↔
      name = "debug" ∨ name = "info" ∨ name = "warn" ∨ name = "error" := by
  unfold logLevelMappingAt logLevelMapping
  by_cases h1 : name = "debug"
  · subst h1; simp [List.lookup]
  · by_cases h2 : name = "info"
    · subst h2; simp [List.lookup]
    · by_cases h3 : name = "warn"
      · subst h3; simp [List.lookup]
      · by_cases h4 : name = "error"
        · subst h4; simp [List.lookup]
        · have b1 : (name == "debug") = false := beq_eq_false_iff_ne.mpr h1
          have b2 : (name == "info") = false := beq_eq_false_iff_ne.mpr h2
          have b3 : (name == "warn") = false := beq_eq_false_iff_ne.mpr h3
          have b4 : (name == "error") = false := beq_eq_false_iff_ne.mpr h4
          simp [List.lookup, h1, h2, h3, h4, b1, b2, b3, b4]

/-! ## Run: the server options bundle and the outcome -/

/-- C1: when connection-config resolution succeeds with `cfg`, `Run` calls the
server constructor exactly once, and the bundle it passes has `Cfg = cfg`,
`Host = o.host`, `Port = o.port`, `Namespace = o.namespace`,
`Horizon = o.horizon`, `Workers = o.workers` and `QueueCapacity = o.queue`,
each unchanged, whatever the values are (zero included). -/
theorem Run_bundle_passthrough {Cfg Err Srv Ctx : Type}
    (env : Collaborators Cfg Err Srv Ctx) (ctx : Ctx) (o : Options) (cfg : Cfg)
    (h : env.GetConfig = (cfg, none)) :
    ∃ b : ServiceOptions Cfg, bundles (Run env ctx o).2 = [b] ∧
      b.Cfg = cfg ∧ b.Host = o.host ∧ b.Port = o.port ∧ b.Namespace = o.namespace_ ∧
      b.Horizon = o.horizon ∧ b.Workers = o.workers ∧ b.QueueCapacity = o.queue := by
  rw [Run_of_resolved env ctx o cfg h]
  exact ⟨_, rfl, rfl, rfl, rfl, rfl, rfl, rfl, rfl⟩

/-- Witness for C1: with port 9090, workers 10 and queue 500 the bundle carries
9090, 10 and 500. -/
theorem Run_bundle_passthrough_witness :
    (sampleEnv "cluster" none none).GetConfig = ("cluster", none) ∧
    ∃ b : ServiceOptions String,
      bundles (Run (sampleEnv "cluster" none none) () sampleOptions).2 = [b] ∧
      b.Cfg = "cluster" ∧ b.Host = sampleOptions.host ∧ b.Port = sampleOptions.port ∧
      b.Namespace = sampleOptions.namespace_ ∧ b.Horizon = sampleOptions.horizon ∧
      b.Workers = sampleOptions.workers ∧ b.QueueCapacity = sampleOptions.queue :=
  ⟨rfl, Run_bundle_passthrough (sampleEnv "cluster" none none) () sampleOptions "cluster" rfl⟩

/-- C2: when connection-config resolution succeeds, `Run` calls the server's
`Start` exactly once, with the context it was given, and returns exactly what
that call returned: the same error value, or nil. -/
theorem Run_returns_start_outcome {Cfg Err Srv Ctx : Type}
    (env : Collaborators Cfg Err Srv Ctx) (ctx : Ctx) (o : Options) (cfg : Cfg)
    (h : env.GetConfig = (cfg, none)) :
    ∃ srv : Srv, starts (Run env ctx o).2 = [(srv, ctx)] ∧
      (Run env ctx o).1 = env.Start srv ctx := by
  rw [Run_of_resolved env ctx o cfg h]
  exact ⟨_, rfl, rfl⟩

/-- Witness for C2: a `Start` that fails with "listen failed" makes `Run` return
that error. -/
theorem Run_returns_start_outcome_witness :
    (sampleEnv "cluster" none (some "listen failed")).GetConfig = ("cluster", none) ∧
    ∃ srv : ServiceOptions String,
      starts (Run (sampleEnv "cluster" none (some "listen failed")) () sampleOptions).2
        = [(srv, ())] ∧
      (Run (sampleEnv "cluster" none (some "listen failed")) () sampleOptions).1
        = (sampleEnv "cluster" none (some "listen failed")).Start srv () :=
  ⟨rfl, Run_returns_start_outcome (sampleEnv "cluster" none (some "listen failed")) ()
    sampleOptions "cluster" rfl⟩

/-- C3: when connection-config resolution fails with `e`, `Run` returns exactly
`e` and its only effect is the call of `GetConfig`: no logger is built, no
bundle is assembled, the server constructor is not called and `Start` is not
invoked. -/
theorem Run_resolution_failure {Cfg Err Srv Ctx : Type}
    (env : Collaborators Cfg Err Srv Ctx) (ctx : Ctx) (o : Options) (cfg : Cfg) (e : Err)
    (h : env.GetConfig = (cfg, some e)) :
    Run env ctx o = (some e, [Effect.getConfig]) ∧
      bundles (Run env ctx o).2 = [] ∧ starts (Run env ctx o).2 = [] ∧
      ∀ format level dev, Effect.setupLogger format level dev ∉ (Run env ctx o).2 := by
  rw [Run_of_failed env ctx o cfg e h]
  refine ⟨rfl, rfl, rfl, ?_⟩
  intro format level dev hmem
  simp at hmem

/-- Witness for C3: resolution failing with "no kubeconfig". -/
theorem Run_resolution_failure_witness :
    (sampleEnv "" (some "no kubeconfig") none).GetConfig = ("", some "no kubeconfig") ∧
    Run (sampleEnv "" (some "no kubeconfig") none) () sampleOptions
      = (some "no kubeconfig", [Effect.getConfig]) ∧
    bundles (Run (sampleEnv "" (some "no kubeconfig") none) () sampleOptions).2 = [] ∧
    starts (Run (sampleEnv "" (some "no kubeconfig") none) () sampleOptions).2 = [] ∧
    ∀ format level dev, Effect.setupLogger format level dev ∉
      (Run (sampleEnv "" (some "no kubeconfig") none) () sampleOptions).2 :=
  ⟨rfl, Run_resolution_failure (sampleEnv "" (some "no kubeconfig") none) () sampleOptions
    "" "no kubeconfig" rfl⟩

/-- C10: `Run` does not depend on the `kubeconfig` field: replacing it by any
other value, with the same collaborators, gives the same effects (hence the
same bundle) and the same outcome. -/
theorem Run_ignores_kubeconfig {Cfg Err Srv Ctx : Type}
    (env : Collaborators Cfg Err Srv Ctx) (ctx : Ctx) (o : Options) (k : String) :
    Run env ctx { o with kubeconfig := k } = Run env ctx o := by
  rfl

/-! ## Flag defaults -/

/-- C4: after `addFlags` has registered the flags on a fresh flag set, and
nothing has overridden them, the `Options` record holds the documented
defaults (kubeconfig "", logLevel "info", logFormat "json", host "", port 8080,
namespace "default", horizon 30 minutes, workers 5, queue 1024, dev false),
whatever it held before; the ten registered names are kubeconfig, log-level,
log-format, host, port, namespace, horizon, workers, queue-capacity and dev,
pairwise distinct, each bound to a different field, and each flag's default is
the value stored in its field. -/
theorem addFlags_defaults (o : Options) :
    (o.addFlags []).1 =
      { kubeconfig := "", logLevel := "info", logFormat := "json", host := "",
        port := 8080, namespace_ := "default", horizon := 30 * 60 * 1000000000,
        workers := 5, queue := 1024, dev := false } ∧
    (o.addFlags []).2.map Flag.name =
      ["kubeconfig", "log-level", "log-format", "host", "port", "namespace",
       "horizon", "workers", "queue-capacity", "dev"] ∧
    ((o.addFlags []).2.map Flag.name).Nodup ∧
    (o.addFlags []).2.map Flag.target =
      [Field.kubeconfig, Field.logLevel, Field.logFormat, Field.host, Field.port,
       Field.namespace_, Field.horizon, Field.workers, Field.queue, Field.dev] ∧
    ((o.addFlags []).2.map Flag.target).Nodup ∧
    (o.addFlags []).2.map Flag.value =
      [FlagValue.string "", FlagValue.string "info", FlagValue.string "json",
       FlagValue.string "", FlagValue.int 8080, FlagValue.string "default",
       FlagValue.duration (30 * 60 * 1000000000), FlagValue.uint64 5,
       FlagValue.uint64 1024, FlagValue.bool false] := by
  refine ⟨?_, ?_, ?_, ?_, ?_, ?_⟩
  · simp [Options.addFlags, StringVar, IntVar, DurationVar, Uint64Var, BoolVar,
      Options.kubeconfigPtr, Options.logLevelPtr, Options.logFormatPtr, Options.hostPtr,
      Options.portPtr, Options.namespacePtr, Options.horizonPtr, Options.workersPtr,
      Options.queuePtr, Options.devPtr, Minute]
  · rfl
  · simp [Options.addFlags, StringVar, IntVar, DurationVar, Uint64Var, BoolVar]
  · rfl
  · simp [Options.addFlags, StringVar, IntVar, DurationVar, Uint64Var, BoolVar,
      Options.kubeconfigPtr, Options.logLevelPtr, Options.logFormatPtr, Options.hostPtr,
      Options.portPtr, Options.namespacePtr, Options.horizonPtr, Options.workersPtr,
      Options.queuePtr, Options.devPtr]
  · simp [Options.addFlags, StringVar, IntVar, DurationVar, Uint64Var, BoolVar, Minute]

/-! ## Levels and the logger -/

/-- C5: `logLevelMapping` has exactly the four keys debug, info, warn and error
(a lookup succeeds for these names and for no other), and the ranks it returns
for them are strictly increasing in that order. -/
theorem logLevelMapping_keys_ordered :
    logLevelMapping.map Prod.fst = ["debug", "info", "warn", "error"] ∧
    (∀ name : String, (logLevelMappingAt name).isSome = true ↔
      name = "debug" ∨ name = "info" ∨ name = "warn" ∨ name = "error") ∧
    ∃ d i w e : Level,
      logLevelMappingAt "debug" = some d ∧ logLevelMappingAt "info" = some i ∧
      logLevelMappingAt "warn" = some w ∧ logLevelMappingAt "error" = some e ∧
      d < i ∧ i < w ∧ w < e := by
  refine ⟨rfl, logLevelMappingAt_isSome_iff, LevelDebug, LevelInfo, LevelWarn, LevelError,
    ?_, ?_, ?_, ?_, ?_, ?_, ?_⟩
  · simp [logLevelMappingAt, logLevelMapping, List.lookup]
  · simp [logLevelMappingAt, logLevelMapping, List.lookup]
  · simp [logLevelMappingAt, logLevelMapping, List.lookup]
  · simp [logLevelMappingAt, logLevelMapping, List.lookup]
  · decide
  · decide
  · decide

/-- C6: for format json or text, a level `l` that `logLevelMapping` returns for
a name, and any dev flag, `setupLogger` returns a non-nil logger, and that
logger is enabled for a record of severity `s` exactly when `l ≤ s`. -/
theorem setupLogger_filters (format : LogFormat) (name : String) (l : Level) (dev : Bool)
    (hf : format = JSON ∨ format = Text) (hl : logLevelMappingAt name = some l) :
    ∃ lg : Logger, setupLogger format (logLevelMappingAt name) dev = some lg ∧
      ∀ s : Level, lg.Enabled s = true ↔ l ≤ s := by
  rw [hl]
  rcases hf with hf | hf
  · subst hf
    refine ⟨{ kind := HandlerKind.json, w := Sink.stdout,
              opts := { AddSource := dev, Level := some l } }, by simp [setupLogger], ?_⟩
    intro s
    simp [Logger.Enabled]
  · subst hf
    refine ⟨{ kind := HandlerKind.text, w := Sink.stdout,
              opts := { AddSource := dev, Level := some l } },
      by simp [setupLogger, Text, JSON], ?_⟩
    intro s
    simp [Logger.Enabled]

/-- Witness for C6: the text format at level warn. -/
theorem setupLogger_filters_witness :
    (Text = JSON ∨ Text = Text) ∧ logLevelMappingAt "warn" = some LevelWarn ∧
    ∃ lg : Logger, setupLogger Text (logLevelMappingAt "warn") true = some lg ∧
      ∀ s : Level, lg.Enabled s = true ↔ LevelWarn ≤ s :=
  ⟨Or.inr rfl, by simp [logLevelMappingAt, logLevelMapping, List.lookup],
    setupLogger_filters Text "warn" LevelWarn true (Or.inr rfl)
      (by simp [logLevelMappingAt, logLevelMapping, List.lookup])⟩

/-- C7: `setupLogger` returns nil exactly when the format is neither "json" nor
"text"; the comparison is exact, so "JSON", "Text" and the empty string give
nil. -/
theorem setupLogger_nil_iff :
    (∀ (format : LogFormat) (level : Leveler) (dev : Bool),
      setupLogger format level dev = none ↔ format ≠ "json" ∧ format ≠ "text") ∧
    (∀ (level : Leveler) (dev : Bool),
      setupLogger "JSON" level dev = none ∧ setupLogger "Text" level dev = none ∧
      setupLogger "" level dev = none) := by
  refine ⟨setupLogger_eq_none_iff, ?_⟩
  intro level dev
  refine ⟨?_, ?_, ?_⟩
  · exact (setupLogger_eq_none_iff _ level dev).mpr ⟨by decide, by decide⟩
  · exact (setupLogger_eq_none_iff _ level dev).mpr ⟨by decide, by decide⟩
  · exact (setupLogger_eq_none_iff _ level dev).mpr ⟨by decide, by decide⟩

/-! ## Unrecognised log level -/

/-- C8, counterexample: the level name "verbose" is not a key of
`logLevelMapping`, yet with format "json" the logger
`setupLogger(LogFormat(logFormat), logLevelMapping[logLevel], dev)` is not nil,
and it is that logger which `Run` places in the bundle. -/
theorem unknown_level_logger_present :
    "verbose" ∉ logLevelMapping.map Prod.fst ∧
    logLevelMappingAt "verbose" = none ∧
    ¬ (setupLogger "json" (logLevelMappingAt "verbose") false = none) ∧
    (bundles (Run (sampleEnv "cluster" none none) ()
        { sampleOptions with logLevel := "verbose" }).2).map ServiceOptions.Log =
      [some { kind := HandlerKind.json, w := Sink.stdout,
              opts := { AddSource := false, Level := none } }] := by
  have hl : logLevelMappingAt "verbose" = none := by
    simp [logLevelMappingAt, logLevelMapping, List.lookup]
  refine ⟨by simp [logLevelMapping], hl, ?_, ?_⟩
  · rw [hl]; simp [setupLogger, JSON]
  · rw [Run_of_resolved _ _ _ "cluster" rfl]
    simp [bundles, hl, sampleOptions, setupLogger, JSON]

/-- C8, amended: for a level name that is not a key of `logLevelMapping` the
level handed to `setupLogger` is the nil `slog.Leveler`, and the logger `Run`
places in the bundle is nil exactly when the format is neither "json" nor
"text"; for "json" and "text" it is a non-nil logger whose handler has a nil
`Level` option. -/
theorem unknown_level_logger {Cfg Err Srv Ctx : Type}
    (env : Collaborators Cfg Err Srv Ctx) (ctx : Ctx) (o : Options) (cfg : Cfg)
    (hc : env.GetConfig = (cfg, none))
    (hl : o.logLevel ∉ logLevelMapping.map Prod.fst) :
    logLevelMappingAt o.logLevel = none ∧
    ∃ b : ServiceOptions Cfg, bundles (Run env ctx o).2 = [b] ∧
      b.Log = setupLogger o.logFormat none o.dev ∧
      (b.Log = none ↔ o.logFormat ≠ "json" ∧ o.logFormat ≠ "text") ∧
      ∀ lg : Logger, b.Log = some lg → lg.opts.Level = none := by
  have hnone : logLevelMappingAt o.logLevel = none := by
    have hiff := logLevelMappingAt_isSome_iff o.logLevel
    have hkeys : ¬ (o.logLevel = "debug" ∨ o.logLevel = "info" ∨ o.logLevel = "warn" ∨
        o.logLevel = "error") := by
      simpa [logLevelMapping] using hl
    cases hat : logLevelMappingAt o.logLevel with
    | none => rfl
    | some l =>
      rw [hat] at hiff
      exact absurd (hiff.mp rfl) hkeys
  refine ⟨hnone, ?_⟩
  rw [Run_of_resolved env ctx o cfg hc, hnone]
  refine ⟨_, rfl, rfl, setupLogger_eq_none_iff _ _ _, ?_⟩
  intro lg hlg
  simp only [setupLogger] at hlg
  split at hlg
  · cases hlg; rfl
  · split at hlg
    · cases hlg; rfl
    · cases hlg

/-- Witness for C8, amended: level "verbose" with the format "json". -/
theorem unknown_level_logger_witness :
    (sampleEnv "cluster" none none).GetConfig = ("cluster", none) ∧
    ({ sampleOptions with logLevel := "verbose" } : Options).logLevel ∉
      logLevelMapping.map Prod.fst ∧
    logLevelMappingAt ({ sampleOptions with logLevel := "verbose" } : Options).logLevel
      = none ∧
    ∃ b : ServiceOptions String,
      bundles (Run (sampleEnv "cluster" none none) ()
        { sampleOptions with logLevel := "verbose" }).2 = [b] ∧
      b.Log = setupLogger ({ sampleOptions with logLevel := "verbose" } : Options).logFormat
        none ({ sampleOptions with logLevel := "verbose" } : Options).dev ∧
      (b.Log = none ↔
        ({ sampleOptions with logLevel := "verbose" } : Options).logFormat ≠ "json" ∧
        ({ sampleOptions with logLevel := "verbose" } : Options).logFormat ≠ "text") ∧
      ∀ lg : Logger, b.Log = some lg → lg.opts.Level = none :=
  ⟨rfl, by simp [logLevelMapping, sampleOptions],
    unknown_level_logger (sampleEnv "cluster" none none) ()
      { sampleOptions with logLevel := "verbose" } "cluster" rfl
      (by simp [logLevelMapping, sampleOptions])⟩

/-! ## Failure of the server's start operation -/

/-- C9, counterexample: with the recognised format "json", a successful
resolution and a `Start` that fails with "listen failed", `Run` returns that
error but writes no record: no `logRecord` occurs among its effects. -/
theorem Run_start_failure_unlogged :
    sampleOptions.logFormat = "json" ∧
    (sampleEnv "cluster" none (some "listen failed")).GetConfig = ("cluster", none) ∧
    (Run (sampleEnv "cluster" none (some "listen failed")) () sampleOptions).1
      = some "listen failed" ∧
    ¬ ∃ (l : Level) (m : String), Effect.logRecord l m ∈
      (Run (sampleEnv "cluster" none (some "listen failed")) () sampleOptions).2 := by
  refine ⟨rfl, rfl, rfl, ?_⟩
  rw [Run_of_resolved _ _ _ "cluster" rfl]
  simp

/-- C9, amended: if connection-config resolution succeeds and the `Start` call
made by `Run` returns an error `e`, then `Run` returns `e`; `Run` itself writes
no record through the logger, which it only hands to the server constructor
in the bundle. -/
theorem Run_start_failure_propagated {Cfg Err Srv Ctx : Type}
    (env : Collaborators Cfg Err Srv Ctx) (ctx : Ctx) (o : Options) (cfg : Cfg)
    (srv : Srv) (e : Err)
    (hc : env.GetConfig = (cfg, none))
    (hs : (srv, ctx) ∈ starts (Run env ctx o).2)
    (he : env.Start srv ctx = some e) :
    (Run env ctx o).1 = some e ∧ records (Run env ctx o).2 = [] ∧
    ∃ b : ServiceOptions Cfg, bundles (Run env ctx o).2 = [b] ∧
      b.Log = setupLogger o.logFormat (logLevelMappingAt o.logLevel) o.dev := by
  rw [Run_of_resolved env ctx o cfg hc] at hs ⊢
  simp only [starts, List.mem_singleton, Prod.mk.injEq] at hs
  obtain ⟨hsrv, -⟩ := hs
  subst hsrv
  exact ⟨he, rfl, _, rfl, rfl⟩

/-- Witness for C9, amended: `Start` failing with "listen failed". -/
theorem Run_start_failure_propagated_witness :
    (sampleEnv "cluster" none (some "listen failed")).GetConfig = ("cluster", none) ∧
    (Run (sampleEnv "cluster" none (some "listen failed")) () sampleOptions).1
      = some "listen failed" ∧
    records (Run (sampleEnv "cluster" none (some "listen failed")) () sampleOptions).2 = [] ∧
    ∃ b : ServiceOptions String,
      bundles (Run (sampleEnv "cluster" none (some "listen failed")) () sampleOptions).2
        = [b] ∧
      b.Log = setupLogger sampleOptions.logFormat (logLevelMappingAt sampleOptions.logLevel)
        sampleOptions.dev :=
  ⟨rfl, Run_start_failure_propagated (sampleEnv "cluster" none (some "listen failed")) ()
    sampleOptions "cluster"
    { Cfg := "cluster",
      Log := setupLogger sampleOptions.logFormat (logLevelMappingAt sampleOptions.logLevel)
        sampleOptions.dev,
      Host := sampleOptions.host, Port := sampleOptions.port,
      Namespace := sampleOptions.namespace_, Horizon := sampleOptions.horizon,
      Workers := sampleOptions.workers, QueueCapacity := sampleOptions.queue }
    "listen failed" rfl
    (by rw [Run_of_resolved _ _ _ "cluster" rfl]; simp [starts, sampleEnv])
    rfl⟩

end App
